import Mathlib

/-!
Verification development for the SATOSA idpy-oidcop frontend
(`src/satosa/frontends/idpy_oidcop.py`) and the test helper module
(`tests/util.py`).

Python dictionaries are embedded as association lists; Python truthiness of
an optional string value (`None` and `""` are falsy) is made explicit at each
use site.  Object-field mutation is embedded as explicit state passing on an
`EndpointContext` record; a Python exception that escapes a function is
embedded as an `Except`/`Option String` result alongside the state, since the
mutations performed before the raise persist.
-/

/-- Lookup in an association list, embedding Python `dict.get(k)`. -/
def dget {α : Type} (m : List (String × α)) (k : String) : Option α :=
  (m.find? (fun kv => kv.1 == k)).map (fun kv => kv.2)

/-- The body of a `satosa.response.JsonResponse`: the source passes either a
dict (serialised as a JSON object) or a plain string (serialised as a JSON
string). -/
inductive JsonBody where
  | obj (fields : List (String × String))
  | str (s : String)
deriving DecidableEq, Repr

/-- Field access on a JSON body: a JSON string has no fields. -/
def JsonBody.getField : JsonBody → String → Option String
  | JsonBody.obj fs, k => dget fs k
  | JsonBody.str _, _ => none

/-- Embeds `satosa.response.JsonResponse` (a body plus an HTTP status). -/
structure JsonResponse where
  body : JsonBody
  status : String
deriving DecidableEq, Repr

/-- A registered OIDC client record (a metadata dict such as
`client_name`, `subject_type`). -/
abbrev Client := List (String × String)

/-- The mutable state the frontend shares across requests: the oidcop
endpoint context's client database `cdb` and the session manager's in-memory
session store (`session_manager`, observed through `dump()`/`flush()`). -/
structure EndpointContext where
  cdb : List (String × Client)
  smanMemory : List (String × String)
deriving DecidableEq, Repr

/-- Embeds `client_id = client_id or context.request.get("client_id")` in
`OidcOpUtils._load_cdb`: the explicit argument wins when truthy, otherwise
the request parameter is consulted; `none`/`""` are both falsy. -/
def resolve_client_id (clientIdArg : Option String)
    (request : List (String × String)) : String :=
  match clientIdArg with
  | some c => if c ≠ "" then c else (dget request "client_id").getD ""
  | none => (dget request "client_id").getD ""

/-- Embeds `OidcOpUtils._load_cdb`.  `storage` stands for
`self.app.storage.get_client_by_id`.  When a client id resolves, the shared
`_ec.cdb` is overwritten with the single-entry dict `{client_id: client}`;
otherwise it is overwritten with `{}` and `InvalidClient` is raised. -/
def load_cdb (storage : List (String × Client)) (ec : EndpointContext)
    (request : List (String × String)) (clientIdArg : Option String) :
    EndpointContext × Except String Client :=
  let client_id := resolve_client_id clientIdArg request
  if client_id ≠ "" then
    let client := (dget storage client_id).getD []
    ({ ec with cdb := [(client_id, client)] }, Except.ok client)
  else
    ({ ec with cdb := [] },
     Except.error ("InvalidClient: Client " ++ client_id ++ " not found!"))

/-- Embeds `OidcOpUtils._flush_endpoint_context_memory`: frees every session
loaded in the session manager's memory. -/
def flush_endpoint_context_memory (ec : EndpointContext) : EndpointContext :=
  { ec with smanMemory := [] }

/-- Embeds `OidcOpUtils.load_session_from_db`.  The storage backend
(`self.app.storage`, in `satosa/frontends/oidcop`, outside these sources) is
abstracted by its two effects: `loaded` is what it places in the session
manager's memory and `data` is the session data it returns. -/
def load_session_from_db (loaded data : List (String × String))
    (ec : EndpointContext) : EndpointContext × List (String × String) :=
  ({ ec with smanMemory := loaded }, data)

/-- Embeds `OidcOpUtils._load_session`: flushes the in-memory session store,
loads the session for this request from the database, and then — when the
loaded data carries a truthy `client_id` — evaluates `sdata["client_id"]`.
The name `sdata` is not defined anywhere in the source, so that branch raises
`NameError` before its call to `_load_cdb` can happen; the mutations already
performed (flush, then load) persist. -/
def load_session (loaded data : List (String × String))
    (ec : EndpointContext) : EndpointContext × Option String :=
  let ec1 := flush_endpoint_context_memory ec
  let (ec2, d) := load_session_from_db loaded data ec1
  if (dget d "client_id").getD "" ≠ "" then
    (ec2, some "NameError: name sdata is not defined")
  else
    (ec2, none)

/-- Embeds `OidcOpUtils.send_response`: flushes the in-memory session store
and returns the response unchanged. -/
def send_response (ec : EndpointContext) (resp : JsonResponse) :
    EndpointContext × JsonResponse :=
  (flush_endpoint_context_memory ec, resp)

/-- Embeds `OidcOpUtils.handle_error`: the falsy-default chain
`msg = msg or f"Something went wrong ... {excp}"` followed by
`JsonResponse(msg, status=status)` — the body is the plain message string,
not an object with `error`/`error_description` fields. -/
def handle_error (ec : EndpointContext) (msg excp : Option String)
    (status : String) : EndpointContext × JsonResponse :=
  let m0 := "Something went wrong ... " ++ excp.getD ""
  let m := match msg with
    | some s => if s ≠ "" then s else m0
    | none => m0
  send_response ec (JsonResponse.mk (JsonBody.str m) status)

/-- The exceptions `OidcOpUtils._process_request` distinguishes when calling
`endpoint.process_request`. -/
inductive ProcExn where
  | invalidClient (msg : String)
  | unknownClient (msg : String)
  | unAuthorizedClient (msg : String)
  | other (msg : String)
deriving DecidableEq, Repr

/-- The message carried by an exception. -/
def ProcExn.message : ProcExn → String
  | ProcExn.invalidClient m => m
  | ProcExn.unknownClient m => m
  | ProcExn.unAuthorizedClient m => m
  | ProcExn.other m => m

/-- Whether the exception is one of `InvalidClient`, `UnknownClient`,
`UnAuthorizedClient` (the first `except` clause of `_process_request`). -/
def ProcExn.isClientError : ProcExn → Bool
  | ProcExn.other _ => false
  | _ => true

/-- Outcome of `_process_request`: either an error `JsonResponse` already
passed through `send_response`, or the processed request data. -/
inductive ProcResult where
  | response (r : JsonResponse)
  | ok (out : List (String × String))
deriving DecidableEq, Repr

/-- Embeds `OidcOpUtils._process_request`.  For the Token endpoint the
request is first rebuilt as an `AccessTokenRequest` (`build`, raising on
missing required parameters → `invalid_request`, HTTP 400).  Then
`endpoint.process_request` (`outcome`) runs: the client exceptions map to
`unauthorized_client`, HTTP 400; any other exception maps to
`invalid_request`, HTTP 400. -/
def process_request (ec : EndpointContext) (isToken : Bool)
    (build : Except String Unit)
    (outcome : Except ProcExn (List (String × String))) :
    EndpointContext × ProcResult :=
  match isToken, build with
  | true, Except.error err =>
      let (ec1, r) := send_response ec
        (JsonResponse.mk
          (JsonBody.obj [("error", "invalid_request"), ("error_description", err)])
          "400")
      (ec1, ProcResult.response r)
  | _, _ =>
      match outcome with
      | Except.ok out => (ec, ProcResult.ok out)
      | Except.error e =>
          let fields :=
            if e.isClientError then
              [("error", "unauthorized_client"), ("error_description", e.message)]
            else
              [("error", "invalid_request"), ("error_description", e.message)]
          let (ec1, r) := send_response ec (JsonResponse.mk (JsonBody.obj fields) "400")
          (ec1, ProcResult.response r)

/-- Embeds `OidcOpUtils.store_session_to_db`: dumps the session manager's
memory to the storage backend; the in-memory state is unchanged. -/
def store_session_to_db (ec : EndpointContext) :
    EndpointContext × List (String × String) :=
  (ec, ec.smanMemory)

/-- Embeds `OidcOpEndpoints.token_endpoint`: `_load_cdb`, `_load_session`
(which can raise `NameError`, see `load_session`), `_process_request`, then
either the error response or the `response_args` success response — each
returned through `send_response`.  `Except.error` is an exception escaping
the endpoint (no response produced). -/
def token_endpoint (storage : List (String × Client))
    (request : List (String × String)) (clientIdArg : Option String)
    (loaded data : List (String × String))
    (build : Except String Unit)
    (outcome : Except ProcExn (List (String × String)))
    (ec : EndpointContext) : EndpointContext × Except String JsonResponse :=
  match load_cdb storage ec request clientIdArg with
  | (ec1, Except.error e) => (ec1, Except.error e)
  | (ec1, Except.ok _) =>
      let (ec2, nameErr) := load_session loaded data ec1
      match nameErr with
      | some e => (ec2, Except.error e)
      | none =>
          match process_request ec2 true build outcome with
          | (ec3, ProcResult.response r) =>
              let (ec4, r') := send_response ec3 r
              (ec4, Except.ok r')
          | (ec3, ProcResult.ok out) =>
              let (ec4, _dump) := store_session_to_db ec3
              let (ec5, r) := send_response ec4 (JsonResponse.mk (JsonBody.obj out) "200")
              (ec5, Except.ok r)

/-- Embeds `satosa.internal.InternalData` as built by
`OidcOpFrontend._handle_authn_request` (`subject_type`, `requester`,
`requester_name`; the latter is the `client_name` text when truthy, else
absent). -/
structure InternalData where
  subjectType : String
  requester : String
  requesterName : Option String
deriving DecidableEq, Repr

/-- What `_handle_authn_request` hands back after the `do_response` step:
an error response, or the internal request passed on to the backend. -/
inductive AuthnResult where
  | resp (r : JsonResponse)
  | data (d : InternalData)
deriving DecidableEq, Repr

/-- Embeds the tail of `OidcOpFrontend._handle_authn_request` from the
`endpoint.do_response` call onward.  On an exception the source calls
`self.handle_error(excp=excp)` WITHOUT `return`: the error response is
discarded and execution falls through to the `context.state` assignment, the
`cdb[client_id]` lookup (the client is present after the earlier
`_load_cdb`), and the construction of `InternalData`, exactly as on
success. -/
def handle_authn_do_response (ec : EndpointContext)
    (doResult : Except String (List (String × String)))
    (client_id : String) : EndpointContext × AuthnResult :=
  let ec1 := match doResult with
    | Except.ok _ => ec
    | Except.error e => (handle_error ec none (some e) "403").1
  let conf := (dget ec1.cdb client_id).getD []
  let client_name := (dget conf "client_name").getD ""
  let subject_type := (dget conf "subject_type").getD "pairwise"
  let requester_name := if client_name ≠ "" then some client_name else none
  (ec1, AuthnResult.data (InternalData.mk subject_type client_id requester_name))

/-- What `OidcOpFrontend._handle_authn_request` returns to its caller: the
`parse_req._dict` of an `AuthorizationErrorResponse` (already sent through
`send_response`), an error `JsonResponse` from `_process_request`, or the
`InternalData` of a successful request. -/
inductive AuthnRequestReturn where
  | errDict (fields : List (String × String))
  | resp (r : JsonResponse)
  | data (d : InternalData)
deriving DecidableEq, Repr

/-- Embeds `OidcOpFrontend._handle_authn_request`: `_load_cdb(context)`,
`_parse_request` (`parseErr` is the `AuthorizationErrorResponse._dict` when
parsing failed, returned through `send_response`), `_load_session` (which
can raise `NameError`, see `load_session`), `_process_request` (not the
Token endpoint), then the `do_response` tail `handle_authn_do_response`
(which swallows a `do_response` exception).  The request's `client_id`
parameter plays `parse_req.get("client_id")`. -/
def handle_authn_request (storage : List (String × Client))
    (request : List (String × String))
    (parseErr : Option (List (String × String)))
    (loaded data : List (String × String))
    (outcome : Except ProcExn (List (String × String)))
    (doResult : Except String (List (String × String)))
    (ec : EndpointContext) : EndpointContext × Except String AuthnRequestReturn :=
  match load_cdb storage ec request none with
  | (ec1, Except.error e) => (ec1, Except.error e)
  | (ec1, Except.ok _) =>
      match parseErr with
      | some fields =>
          (flush_endpoint_context_memory ec1,
           Except.ok (AuthnRequestReturn.errDict fields))
      | none =>
          let (ec2, nameErr) := load_session loaded data ec1
          match nameErr with
          | some e => (ec2, Except.error e)
          | none =>
              match process_request ec2 false (Except.ok ()) outcome with
              | (ec3, ProcResult.response r) =>
                  (ec3, Except.ok (AuthnRequestReturn.resp r))
              | (ec3, ProcResult.ok _) =>
                  match handle_authn_do_response ec3 doResult
                      ((dget request "client_id").getD "") with
                  | (ec4, AuthnResult.resp r) =>
                      (ec4, Except.ok (AuthnRequestReturn.resp r))
                  | (ec4, AuthnResult.data d) =>
                      (ec4, Except.ok (AuthnRequestReturn.data d))

/-- What `OidcOpEndpoints.authorization_endpoint` produces: an error result
returned through `send_response`, or — on success — the `InternalData`
handed to `self.auth_req_callback_func` (whose return value is the HTTP
response of the request). -/
inductive AuthzResult where
  | callback (d : InternalData)
  | errDict (fields : List (String × String))
  | resp (r : JsonResponse)
deriving DecidableEq, Repr

/-- Embeds `OidcOpEndpoints.authorization_endpoint`: `_load_cdb`, then
`_handle_authn_request`; a non-`InternalData` result is returned through
`send_response`, but the success path returns
`self.auth_req_callback_func(context, internal_req)` directly — without
`send_response` and hence without flushing the session manager's memory. -/
def authorization_endpoint (storage : List (String × Client))
    (request : List (String × String))
    (parseErr : Option (List (String × String)))
    (loaded data : List (String × String))
    (outcome : Except ProcExn (List (String × String)))
    (doResult : Except String (List (String × String)))
    (ec : EndpointContext) : EndpointContext × Except String AuthzResult :=
  match load_cdb storage ec request none with
  | (ec1, Except.error e) => (ec1, Except.error e)
  | (ec1, Except.ok _) =>
      match handle_authn_request storage request parseErr loaded data outcome
          doResult ec1 with
      | (ec2, Except.error e) => (ec2, Except.error e)
      | (ec2, Except.ok (AuthnRequestReturn.errDict fields)) =>
          (flush_endpoint_context_memory ec2,
           Except.ok (AuthzResult.errDict fields))
      | (ec2, Except.ok (AuthnRequestReturn.resp r)) =>
          let (ec3, r') := send_response ec2 r
          (ec3, Except.ok (AuthzResult.resp r'))
      | (ec2, Except.ok (AuthnRequestReturn.data d)) =>
          (ec2, Except.ok (AuthzResult.callback d))

/-- Embeds `OidcOpEndpoints.userinfo_endpoint` at the session-manager
level: `_load_session` (which can raise `NameError`), `_process_request`
(not the Token endpoint), then the error response or the `response_args`
success response after `store_session_to_db` — each returned through
`send_response`.  The claims loaded into `ec.userinfo` at the start are
flushed from that separate cache (`ec.userinfo.flush()`) before any response
is built; the session manager is the state modelled here. -/
def userinfo_endpoint (loaded data : List (String × String))
    (outcome : Except ProcExn (List (String × String)))
    (ec : EndpointContext) : EndpointContext × Except String JsonResponse :=
  let (ec1, nameErr) := load_session loaded data ec
  match nameErr with
  | some e => (ec1, Except.error e)
  | none =>
      match process_request ec1 false (Except.ok ()) outcome with
      | (ec2, ProcResult.response r) =>
          let (ec3, r') := send_response ec2 r
          (ec3, Except.ok r')
      | (ec2, ProcResult.ok out) =>
          let (ec3, _dump) := store_session_to_db ec2
          let (ec4, r) := send_response ec3 (JsonResponse.mk (JsonBody.obj out) "200")
          (ec4, Except.ok r)

/-- Embeds the claim filter in `OidcOpFrontend.handle_authn_response`:
`claims = {k: v for k, v in _claims.items() if v}`.  An attribute value is a
list of strings; the falsy (unset/empty) value is the empty list. -/
def filter_unset_claims (claims : List (String × List String)) :
    List (String × List String) :=
  claims.filter (fun kv => !kv.2.isEmpty)

/-- The module-level constant `IGNORED_HEADERS`. -/
def IGNORED_HEADERS : List String := ["cookie", "user-agent"]

/-- The attributes of `ExtendedContext` read by
`OidcOpUtils._get_http_headers`.  `ExtendedContext.__init__` initialises
`http_headers` to `{}` and the three strings to `""`, so the falsy/absent
case of each `getattr` test is the empty list / empty string. -/
structure HttpContext where
  httpHeaders : List (String × String)
  requestMethod : String
  requestUri : String
  requestAuthorization : String
deriving DecidableEq, Repr

/-- The dict `_get_http_headers` returns: each key is present or absent. -/
structure HttpInfoDict where
  headers : Option (List (String × String))
  method : Option String
  url : Option String
deriving DecidableEq, Repr

/-- Embeds `OidcOpUtils._get_http_headers`: when `context.http_headers` is
truthy, builds `{headers, method, url}` with header names lower-cased and
`IGNORED_HEADERS` dropped (the membership test is on the original name);
then, when `context.request_authorization` is truthy, the `headers` entry is
overwritten with the single authorization header. -/
def get_http_headers (ctx : HttpContext) : HttpInfoDict :=
  let base : HttpInfoDict :=
    if !ctx.httpHeaders.isEmpty then
      { headers := some (ctx.httpHeaders.filterMap (fun kv =>
          if kv.1 ∈ IGNORED_HEADERS then none else some (kv.1.toLower, kv.2))),
        method := some ctx.requestMethod,
        url := some ctx.requestUri }
    else
      { headers := none, method := none, url := none }
  if ctx.requestAuthorization ≠ "" then
    { base with headers := some [("authorization", ctx.requestAuthorization)] }
  else
    base

/-- Modelled from the spec: a stored authentication session (subject id,
client id, granted scopes, liveness).  The concrete session store
(`SatosaOidcStorage` in `satosa/frontends/oidcop`, driven through
`session_manager.create_session` in `_handle_backend_response` and
`load_session_from_db`) is not among these sources. -/
structure SessionRec where
  subjectId : String
  clientId : String
  scopes : List String
  active : Bool
deriving DecidableEq, Repr

/-- Modelled from the spec: the Session Manager's durable store, keyed by an
opaque unique session id (a fresh-id counter). -/
structure SessionStore where
  sessions : List (Nat × SessionRec)
  nextId : Nat
deriving DecidableEq, Repr

/-- Modelled from the spec: `create(subject, client, scopes)` generates a
fresh unique id and persists an active session. -/
def SessionStore.create (st : SessionStore) (sub cli : String)
    (scopes : List String) : Nat × SessionStore :=
  (st.nextId,
   SessionStore.mk ((st.nextId, SessionRec.mk sub cli scopes true) :: st.sessions)
     (st.nextId + 1))

/-- Errors of the Session Manager's `load`. -/
inductive LoadErr where
  | sessionNotFound
  | sessionExpired
deriving DecidableEq, Repr

/-- Modelled from the spec: `load(session_id)` returns the stored session or
fails with `SessionNotFound` / `SessionExpired`. -/
def SessionStore.load (st : SessionStore) (sid : Nat) :
    Except LoadErr SessionRec :=
  match (st.sessions.find? (fun s => s.1 == sid)).map (fun s => s.2) with
  | none => Except.error LoadErr.sessionNotFound
  | some s => if s.active then Except.ok s else Except.error LoadErr.sessionExpired

/-- The `TypeError` message raised by `FileGenerator.__init__` when an
instance already exists. -/
def singleton_err_msg : String :=
  "TypeError: Singletons must be accessed through get_instance()."

/-- The process-wide state behind `tests/util.py`'s `FileGenerator`
singleton: the class attribute `_instance` (identified by a numeric object
id), a fresh-id counter, and a count of instances ever constructed. -/
structure FGState where
  instanceId : Option Nat
  nextId : Nat
  createdCount : Nat
deriving DecidableEq, Repr

/-- The state at process start: `FileGenerator._instance = None`. -/
def FGState.initial : FGState := FGState.mk none 0 0

/-- Embeds `FileGenerator.__init__`: raises `TypeError` when `_instance` is
already set, otherwise registers the new object as `_instance`. -/
def fg_construct (st : FGState) : Except String (Nat × FGState) :=
  match st.instanceId with
  | some _ => Except.error singleton_err_msg
  | none =>
      Except.ok (st.nextId, FGState.mk (some st.nextId) (st.nextId + 1) (st.createdCount + 1))

/-- Embeds `FileGenerator.get_instance`: constructs the instance when
`_instance is None`, then returns `_instance`. -/
def fg_get_instance (st : FGState) : Except String (Nat × FGState) :=
  match st.instanceId with
  | some i => Except.ok (i, st)
  | none => fg_construct st

/-- A process-visible action on the `FileGenerator` class state: a direct
construction `FileGenerator()` or a `FileGenerator.get_instance()` call. -/
inductive FGOp where
  | construct
  | getInstance
deriving DecidableEq, Repr

/-- One action: a raised `TypeError` leaves the class state unchanged. -/
def fg_step (st : FGState) : FGOp → FGState
  | FGOp.construct =>
      match fg_construct st with
      | Except.ok (_, st') => st'
      | Except.error _ => st
  | FGOp.getInstance =>
      match fg_get_instance st with
      | Except.ok (_, st') => st'
      | Except.error _ => st

/-- Run a sequence of actions from process start. -/
def fg_run (ops : List FGOp) : FGState :=
  List.foldl fg_step FGState.initial ops

/-- The singleton invariant on the `FileGenerator` class state: at most one
instance was ever constructed, and none before `_instance` is set. -/
def FGInv (st : FGState) : Prop :=
  st.createdCount ≤ 1 ∧ (st.instanceId = none → st.createdCount = 0)

theorem fg_inv_initial : FGInv FGState.initial := by
  constructor <;> simp [FGState.initial]

theorem fg_step_inv (st : FGState) (op : FGOp) (h : FGInv st) :
    FGInv (fg_step st op) := by
  rcases h with ⟨h1, h2⟩
  cases op with
  | construct =>
      cases hst : st.instanceId with
      | some k =>
          have hs : fg_step st FGOp.construct = st := by
            simp [fg_step, fg_construct, hst]
          rw [hs]; exact ⟨h1, h2⟩
      | none =>
          have hc := h2 hst
          simp [fg_step, fg_construct, hst, FGInv, hc]
  | getInstance =>
      cases hst : st.instanceId with
      | some k =>
          have hs : fg_step st FGOp.getInstance = st := by
            simp [fg_step, fg_get_instance, hst]
          rw [hs]; exact ⟨h1, h2⟩
      | none =>
          have hc := h2 hst
          simp [fg_step, fg_get_instance, fg_construct, hst, FGInv, hc]

theorem fg_run_inv (ops : List FGOp) (st : FGState) (h : FGInv st) :
    FGInv (List.foldl fg_step st ops) := by
  induction ops generalizing st with
  | nil => exact h
  | cons op rest ih => exact ih (fg_step st op) (fg_step_inv st op h)

theorem fg_get_instance_fixes (st : FGState) (i : Nat) (st' : FGState)
    (h : fg_get_instance st = Except.ok (i, st')) :
    fg_get_instance st' = Except.ok (i, st') := by
  cases hst : st.instanceId with
  | some k =>
      simp [fg_get_instance, hst] at h
      rcases h with ⟨hk, hs⟩
      subst hk; subst hs
      simp [fg_get_instance, hst]
  | none =>
      simp [fg_get_instance, fg_construct, hst] at h
      rcases h with ⟨hk, hs⟩
      subst hk; subst hs
      simp [fg_get_instance]

/-- C1 counterexample: `_load_cdb` is not side-effect free.  Looking up
client `b` overwrites the shared endpoint context's client registry `cdb`,
which before the call held the entry for client `a`. -/
theorem load_cdb_mutates_counterexample :
    (load_cdb [("b", [("client_name", "B")])]
        (EndpointContext.mk [("a", [("client_name", "A")])] []) []
        (some "b")).1.cdb
      ≠ [("a", [("client_name", "A")])] := by
  decide

/-- C1 (amended): `_load_cdb` overwrites the shared endpoint context's `cdb`
on every call — with the single-entry dict `{client_id: client}` when a
client id resolves, and with the empty dict when none does; the lookup is
therefore not side-effect free on shared state. -/
theorem load_cdb_overwrites_cdb (storage : List (String × Client))
    (ec : EndpointContext) (request : List (String × String))
    (clientIdArg : Option String) :
    (resolve_client_id clientIdArg request ≠ "" →
      (load_cdb storage ec request clientIdArg).1.cdb
        = [(resolve_client_id clientIdArg request,
            (dget storage (resolve_client_id clientIdArg request)).getD [])])
    ∧ (resolve_client_id clientIdArg request = "" →
      (load_cdb storage ec request clientIdArg).1.cdb = []) := by
  constructor <;> intro h <;> simp [load_cdb, h]

/-- C1 witness: loading client `c1` leaves exactly the single-entry registry
for `c1`. -/
theorem load_cdb_overwrites_cdb_witness :
    resolve_client_id (some "c1") [] ≠ ""
    ∧ (load_cdb [("c1", [("client_name", "C")])]
          (EndpointContext.mk [] [("s", "v")]) [] (some "c1")).1.cdb
        = [(resolve_client_id (some "c1") [],
            (dget [("c1", [("client_name", "C")])]
              (resolve_client_id (some "c1") [])).getD [])] :=
  ⟨by decide,
   (load_cdb_overwrites_cdb [("c1", [("client_name", "C")])]
      (EndpointContext.mk [] [("s", "v")]) [] (some "c1")).1 (by decide)⟩

theorem load_session_memory (loaded data : List (String × String))
    (ec : EndpointContext) :
    (load_session loaded data ec).1.smanMemory = loaded := by
  simp only [load_session, load_session_from_db, flush_endpoint_context_memory]
  split <;> rfl

theorem handle_authn_request_data_memory (storage : List (String × Client))
    (request : List (String × String))
    (parseErr : Option (List (String × String)))
    (loaded data : List (String × String))
    (outcome : Except ProcExn (List (String × String)))
    (doResult : Except String (List (String × String)))
    (ec : EndpointContext) (info : List (String × String))
    (hdo : doResult = Except.ok info) (d : InternalData)
    (h : (handle_authn_request storage request parseErr loaded data outcome
        doResult ec).2 = Except.ok (AuthnRequestReturn.data d)) :
    (handle_authn_request storage request parseErr loaded data outcome
        doResult ec).1.smanMemory = loaded := by
  subst hdo
  rcases hcdb : load_cdb storage ec request none with ⟨ec1, cres⟩
  rcases hls : load_session loaded data ec1 with ⟨ec2, nameErr⟩
  have hmem : ec2.smanMemory = loaded := by
    have h0 := load_session_memory loaded data ec1
    rw [hls] at h0
    exact h0
  cases cres <;> cases parseErr <;> cases nameErr <;> cases outcome <;>
    simp_all [handle_authn_request, hcdb, hls, process_request,
      handle_authn_do_response, handle_error, send_response,
      flush_endpoint_context_memory]

/-- C2 counterexample: a successfully completed authorization request — the
internal request is handed to `auth_req_callback_func`, whose return value
is the HTTP response of the request — leaves the session that
`_load_session` loaded still cached in the session manager's memory: it is
not flushed before the response is returned. -/
theorem authorization_leaves_session_cached_counterexample :
    (authorization_endpoint [("c1", [("subject_type", "public")])]
        [("client_id", "c1")] none [("sess", "x")] [] (Except.ok [])
        (Except.ok []) (EndpointContext.mk [] [])).2
      = Except.ok (AuthzResult.callback (InternalData.mk "public" "c1" none))
    ∧ (authorization_endpoint [("c1", [("subject_type", "public")])]
        [("client_id", "c1")] none [("sess", "x")] [] (Except.ok [])
        (Except.ok []) (EndpointContext.mk [] [])).1.smanMemory
      = [("sess", "x")]
    ∧ [("sess", "x")] ≠ ([] : List (String × String)) :=
  ⟨rfl, rfl, by decide⟩

/-- C2 (amended): `_load_session` always flushes the session manager's
memory before loading, so its post-state holds exactly what the database
loaded; `send_response` flushes before returning; every response the token
and userinfo endpoints return leaves the memory empty; and the
authorization endpoint flushes on its error returns — but its success path
hands the internal request to `auth_req_callback_func` WITHOUT flushing,
leaving the session loaded by `_load_session` cached in process memory
until some later request's flush. -/
theorem session_flush_per_endpoint (storage : List (String × Client))
    (request : List (String × String)) (clientIdArg : Option String)
    (parseErr : Option (List (String × String)))
    (loaded data : List (String × String)) (build : Except String Unit)
    (outcome : Except ProcExn (List (String × String)))
    (doResult : Except String (List (String × String)))
    (ec : EndpointContext) (r : JsonResponse) :
    (load_session loaded data ec).1.smanMemory = loaded
    ∧ (send_response ec r).1.smanMemory = []
    ∧ (∀ resp : JsonResponse,
        (token_endpoint storage request clientIdArg loaded data build outcome
            ec).2 = Except.ok resp →
        (token_endpoint storage request clientIdArg loaded data build outcome
            ec).1.smanMemory = [])
    ∧ (∀ resp : JsonResponse,
        (userinfo_endpoint loaded data outcome ec).2 = Except.ok resp →
        (userinfo_endpoint loaded data outcome ec).1.smanMemory = [])
    ∧ (∀ fields,
        (authorization_endpoint storage request parseErr loaded data outcome
            doResult ec).2 = Except.ok (AuthzResult.errDict fields) →
        (authorization_endpoint storage request parseErr loaded data outcome
            doResult ec).1.smanMemory = [])
    ∧ (∀ r' : JsonResponse,
        (authorization_endpoint storage request parseErr loaded data outcome
            doResult ec).2 = Except.ok (AuthzResult.resp r') →
        (authorization_endpoint storage request parseErr loaded data outcome
            doResult ec).1.smanMemory = [])
    ∧ (∀ (d : InternalData) (info : List (String × String)),
        doResult = Except.ok info →
        (authorization_endpoint storage request parseErr loaded data outcome
            doResult ec).2 = Except.ok (AuthzResult.callback d) →
        (authorization_endpoint storage request parseErr loaded data outcome
            doResult ec).1.smanMemory = loaded) := by
  refine ⟨load_session_memory loaded data ec, rfl, ?_, ?_, ?_, ?_, ?_⟩
  · intro resp h
    rcases hcdb : load_cdb storage ec request clientIdArg with ⟨ec1, cres⟩
    rcases hls : load_session loaded data ec1 with ⟨ec2, nameErr⟩
    rcases hpr : process_request ec2 true build outcome with ⟨ec3, pres⟩
    cases cres <;> cases nameErr <;> cases pres <;>
      simp only [token_endpoint, hcdb, hls, hpr, store_session_to_db,
        send_response, flush_endpoint_context_memory] at h ⊢ <;>
      simp_all
  · intro resp h
    rcases hls : load_session loaded data ec with ⟨ec1, nameErr⟩
    rcases hpr : process_request ec1 false (Except.ok ()) outcome with ⟨ec2, pres⟩
    cases nameErr <;> cases pres <;>
      simp only [userinfo_endpoint, hls, hpr, store_session_to_db,
        send_response, flush_endpoint_context_memory] at h ⊢ <;>
      simp_all
  · intro fields h
    rcases hcdb : load_cdb storage ec request none with ⟨ec1, cres⟩
    rcases hha : handle_authn_request storage request parseErr loaded data
        outcome doResult ec1 with ⟨ec2, ares⟩
    cases cres <;>
      (try rcases ares with _ | (fields' | r' | d')) <;>
      simp only [authorization_endpoint, hcdb, hha, send_response,
        flush_endpoint_context_memory] at h ⊢ <;>
      simp_all
  · intro r' h
    rcases hcdb : load_cdb storage ec request none with ⟨ec1, cres⟩
    rcases hha : handle_authn_request storage request parseErr loaded data
        outcome doResult ec1 with ⟨ec2, ares⟩
    cases cres <;>
      (try rcases ares with _ | (fields' | r'' | d')) <;>
      simp only [authorization_endpoint, hcdb, hha, send_response,
        flush_endpoint_context_memory] at h ⊢ <;>
      simp_all
  · intro d info hdo h
    rcases hcdb : load_cdb storage ec request none with ⟨ec1, cres⟩
    rcases hha : handle_authn_request storage request parseErr loaded data
        outcome doResult ec1 with ⟨ec2, ares⟩
    cases cres with
    | error e =>
        simp only [authorization_endpoint, hcdb] at h
        exact absurd h (by simp)
    | ok c =>
        rcases ares with e | (fields' | r' | d')
        · simp only [authorization_endpoint, hcdb, hha] at h
          exact absurd h (by simp)
        · simp only [authorization_endpoint, hcdb, hha] at h
          simp at h
        · simp only [authorization_endpoint, hcdb, hha, send_response] at h
          simp at h
        · have h' : (handle_authn_request storage request parseErr loaded data
              outcome doResult ec1).2
              = Except.ok (AuthnRequestReturn.data d') := by
            rw [hha]
          have hm := handle_authn_request_data_memory storage request parseErr
            loaded data outcome doResult ec1 info hdo d' h'
          rw [hha] at hm
          simp only [authorization_endpoint, hcdb, hha]
          exact hm

/-- C2 witness: at the counterexample's concrete inputs, the amended
theorem's authorization-success conjunct yields the unflushed
session-manager memory. -/
theorem session_flush_per_endpoint_witness :
    (authorization_endpoint [("c1", [("subject_type", "public")])]
        [("client_id", "c1")] none [("sess", "x")] [] (Except.ok [])
        (Except.ok []) (EndpointContext.mk [] [])).1.smanMemory
      = [("sess", "x")] :=
  (session_flush_per_endpoint [("c1", [("subject_type", "public")])]
      [("client_id", "c1")] none none [("sess", "x")] [] (Except.ok ())
      (Except.ok []) (Except.ok []) (EndpointContext.mk [] [])
      (JsonResponse.mk (JsonBody.obj []) "200")).2.2.2.2.2.2
    (InternalData.mk "public" "c1" none) [] rfl (by rfl)

/-- C3 (code bug): when `endpoint.do_response` raises inside
`_handle_authn_request`, the error is swallowed: `handle_error` is called
without `return`, so its response is discarded and the function falls
through and produces the `InternalData` of a successful request; moreover
the discarded `handle_error` response body is the bare message string, with
neither an `error` nor an `error_description` field. -/
theorem authn_error_swallowed_and_unstructured :
    (handle_authn_do_response
        (EndpointContext.mk
          [("c1", [("client_name", "C"), ("subject_type", "public")])] [])
        (Except.error "boom") "c1").2
      = AuthnResult.data (InternalData.mk "public" "c1" (some "C"))
    ∧ (handle_error (EndpointContext.mk [] []) none (some "boom") "403").2
      = JsonResponse.mk (JsonBody.str "Something went wrong ... boom") "403"
    ∧ JsonBody.getField (JsonBody.str "Something went wrong ... boom") "error"
      = none
    ∧ JsonBody.getField (JsonBody.str "Something went wrong ... boom")
        "error_description" = none := by
  refine ⟨rfl, rfl, rfl, rfl⟩

/-- C4: every `InvalidClient`, `UnknownClient` or `UnAuthorizedClient`
failure in `_process_request` yields an HTTP 400 `JsonResponse` whose body
has `error = "unauthorized_client"` (for the token endpoint, provided the
request survived the `AccessTokenRequest` rebuild). -/
theorem client_errors_unauthorized_client (ec : EndpointContext)
    (isToken : Bool) (build : Except String Unit) (e : ProcExn)
    (hce : e.isClientError = true)
    (hb : isToken = false ∨ build = Except.ok ()) :
    (process_request ec isToken build (Except.error e)).2
      = ProcResult.response
          (JsonResponse.mk
            (JsonBody.obj
              [("error", "unauthorized_client"),
               ("error_description", e.message)])
            "400") := by
  rcases hb with hb | hb
  · subst hb
    cases build <;> simp [process_request, send_response, hce]
  · subst hb
    cases isToken <;> simp [process_request, send_response, hce]

/-- C4 witness: a token request whose processing raises `UnknownClient`
(unknown `client_id`) yields HTTP 400 with `error = unauthorized_client`. -/
theorem client_errors_unauthorized_client_witness :
    ProcExn.isClientError (ProcExn.unknownClient "Unknown client c9") = true
    ∧ (process_request (EndpointContext.mk [] []) true (Except.ok ())
          (Except.error (ProcExn.unknownClient "Unknown client c9"))).2
        = ProcResult.response
            (JsonResponse.mk
              (JsonBody.obj
                [("error", "unauthorized_client"),
                 ("error_description",
                  ProcExn.message (ProcExn.unknownClient "Unknown client c9"))])
              "400") :=
  ⟨by decide,
   client_errors_unauthorized_client (EndpointContext.mk [] []) true
     (Except.ok ()) (ProcExn.unknownClient "Unknown client c9") (by decide)
     (Or.inr rfl)⟩

/-- C5: a token request that cannot be rebuilt into a valid
`AccessTokenRequest` (missing required parameters) yields an HTTP 400
`JsonResponse` whose body has `error = "invalid_request"`. -/
theorem missing_params_invalid_request (ec : EndpointContext) (err : String)
    (outcome : Except ProcExn (List (String × String))) :
    (process_request ec true (Except.error err) outcome).2
      = ProcResult.response
          (JsonResponse.mk
            (JsonBody.obj
              [("error", "invalid_request"), ("error_description", err)])
            "400") := by
  simp [process_request, send_response]

/-- C6: the claim filter of `handle_authn_response` keeps exactly the claims
with a non-empty value: a claim is in the filtered set iff it was among the
converted claims and its value is non-empty, so unset/empty claims are
omitted and no claim is returned with an empty placeholder value. -/
theorem unset_claims_omitted (claims : List (String × List String))
    (k : String) (v : List String) :
    (k, v) ∈ filter_unset_claims claims ↔ ((k, v) ∈ claims ∧ v ≠ []) := by
  cases v <;> simp [filter_unset_claims, List.mem_filter]

/-- C7: creating a session for a subject and client and loading it back by
its fresh id returns a session with the identical subject id and client id
(and scopes), as an active session. -/
theorem create_then_load_session (st : SessionStore) (sub cli : String)
    (scopes : List String) :
    (st.create sub cli scopes).2.load (st.create sub cli scopes).1
      = Except.ok (SessionRec.mk sub cli scopes true) := by
  simp [SessionStore.create, SessionStore.load, List.find?]

/-- C8 counterexample: session data that contains the `client_id` key with
the (falsy) empty-string value does not make `_load_session` raise — the
`data.get("client_id")` truthiness test skips the broken branch, so the
claim as stated over key presence fails. -/
theorem load_session_empty_client_id_counterexample :
    dget [("client_id", "")] "client_id" = some ""
    ∧ (load_session [] [("client_id", "")] (EndpointContext.mk [] [])).2
        = none := by
  exact ⟨rfl, rfl⟩

/-- C8 (amended): whenever the session data loaded from the database carries
`client_id` with a truthy (non-empty) value, `_load_session` raises
`NameError` on the undefined name `sdata`; the client-DB-reload branch is
unreachable without an exception, so `_load_session` never changes `cdb`. -/
theorem load_session_truthy_client_id_name_error
    (loaded data : List (String × String)) (ec : EndpointContext) (v : String)
    (hd : dget data "client_id" = some v) (hv : v ≠ "") :
    (load_session loaded data ec).2
      = some "NameError: name sdata is not defined"
    ∧ (load_session loaded data ec).1.cdb = ec.cdb := by
  simp [load_session, load_session_from_db, flush_endpoint_context_memory,
    hd, hv]

/-- C8 witness: loaded session data carrying `client_id = "c1"` raises
`NameError` and leaves the registry untouched. -/
theorem load_session_truthy_client_id_name_error_witness :
    dget [("client_id", "c1")] "client_id" = some "c1"
    ∧ ("c1" : String) ≠ ""
    ∧ (load_session [] [("client_id", "c1")]
          (EndpointContext.mk [("a", [])] [])).2
        = some "NameError: name sdata is not defined"
    ∧ (load_session [] [("client_id", "c1")]
          (EndpointContext.mk [("a", [])] [])).1.cdb
        = (EndpointContext.mk [("a", [])] []).cdb :=
  ⟨by decide, by decide,
   (load_session_truthy_client_id_name_error [] [("client_id", "c1")]
      (EndpointContext.mk [("a", [])] []) "c1" (by decide) (by decide)).1,
   (load_session_truthy_client_id_name_error [] [("client_id", "c1")]
      (EndpointContext.mk [("a", [])] []) "c1" (by decide) (by decide)).2⟩

/-- C9: when `context.request_authorization` is truthy,
`_get_http_headers` returns a dict whose `headers` entry holds only the
authorization header — every other HTTP header is discarded — and when
`context.http_headers` was absent the result has no `method` or `url`
entry either. -/
theorem authorization_header_overwrites (ctx : HttpContext)
    (h : ctx.requestAuthorization ≠ "") :
    (get_http_headers ctx).headers
      = some [("authorization", ctx.requestAuthorization)]
    ∧ (ctx.httpHeaders = [] →
        (get_http_headers ctx).method = none
        ∧ (get_http_headers ctx).url = none) := by
  constructor
  · simp only [get_http_headers, h]
    split <;> simp
  · intro he
    simp [get_http_headers, he, h]

/-- C9 witness: with no stored request headers and a bearer authorization,
the result holds only the authorization header and no method/url. -/
theorem authorization_header_overwrites_witness :
    (HttpContext.mk [] "GET" "u" "Bearer abc").requestAuthorization ≠ ""
    ∧ ((get_http_headers (HttpContext.mk [] "GET" "u" "Bearer abc")).headers
        = some [("authorization", "Bearer abc")]
      ∧ ((HttpContext.mk [] "GET" "u" "Bearer abc").httpHeaders = [] →
          (get_http_headers (HttpContext.mk [] "GET" "u" "Bearer abc")).method
            = none
          ∧ (get_http_headers (HttpContext.mk [] "GET" "u" "Bearer abc")).url
            = none)) :=
  ⟨by decide,
   authorization_header_overwrites (HttpContext.mk [] "GET" "u" "Bearer abc")
     (by decide)⟩

/-- C10: `FileGenerator` is a singleton.  Along any sequence of direct
constructions and `get_instance` calls from process start: at most one
instance is ever constructed; two consecutive successful `get_instance`
calls return the same object; and once an instance exists, constructing
`FileGenerator()` directly raises `TypeError`. -/
theorem file_generator_single_instance (ops : List FGOp) :
    (fg_run ops).createdCount ≤ 1
    ∧ (∀ (i : Nat) (st' : FGState),
        fg_get_instance (fg_run ops) = Except.ok (i, st') →
        ∀ (j : Nat) (st'' : FGState),
          fg_get_instance st' = Except.ok (j, st'') → i = j)
    ∧ (∀ i : Nat, (fg_run ops).instanceId = some i →
        fg_construct (fg_run ops) = Except.error singleton_err_msg) := by
  refine ⟨(fg_run_inv ops FGState.initial fg_inv_initial).1, ?_, ?_⟩
  · intro i st' h j st'' h2
    rw [fg_get_instance_fixes (fg_run ops) i st' h] at h2
    have hp : (i, st') = (j, st'') := by
      injection h2
    exact (Prod.mk.injEq i st' j st'').mp hp |>.1
  · intro i h
    simp [fg_construct, h]

/-- C10 witness: after a `get_instance` call followed by a direct
construction attempt, exactly one instance exists and a further direct
construction raises `TypeError`. -/
theorem file_generator_single_instance_witness :
    (fg_run [FGOp.getInstance, FGOp.construct]).createdCount ≤ 1
    ∧ fg_construct (fg_run [FGOp.getInstance, FGOp.construct])
        = Except.error singleton_err_msg :=
  ⟨(file_generator_single_instance [FGOp.getInstance, FGOp.construct]).1,
   (file_generator_single_instance [FGOp.getInstance, FGOp.construct]).2.2 0
     (by decide)⟩
